import Mathlib

/-!
Verification of the Coffee_Shop backend (starter_code/backend/src/api.py)
against its natural-language specification.

The repository ships only the route layer (api.py); the authorization
module it imports (auth.auth: AuthError, requires_auth and the token
verification pipeline) is not part of the sources, so that pipeline is
modelled from the specification text, as marked on each definition.
The CRUD route bodies (create_drink, update_drink) and the AuthError
dispatcher handler (auth_error) are embedded directly from api.py.
-/

namespace CoffeeShop

/-- Modelled from the spec: the error taxonomy of the missing auth module
(section 7): MissingHeader, MalformedHeader, MalformedToken, UnknownKey,
InvalidSignature, TokenExpired, InvalidClaims, PermissionsClaimMissing,
PermissionDenied, KeySetUnavailable. -/
inductive AuthErrorKind where
  | MissingHeader
  | MalformedHeader
  | MalformedToken
  | UnknownKey
  | InvalidSignature
  | TokenExpired
  | InvalidClaims
  | PermissionsClaimMissing
  | PermissionDenied
  | KeySetUnavailable
deriving DecidableEq, Repr

/-- Modelled from the spec: each error kind maps to a fixed HTTP status:
401 for all authentication-layer failures, 403 for authorization denial,
400 for the malformed-configuration-like claim (section 7). -/
def AuthErrorKind.status : AuthErrorKind → Nat
  | .PermissionDenied => 403
  | .PermissionsClaimMissing => 400
  | _ => 401

/-- Modelled from the spec: a human-readable message for each error kind
(section 7 requires a human-readable message per failure). -/
def AuthErrorKind.message : AuthErrorKind → String
  | .MissingHeader => "authorization header is expected"
  | .MalformedHeader => "authorization header must be a bearer token"
  | .MalformedToken => "unable to parse authentication token"
  | .UnknownKey => "unable to find the appropriate key"
  | .InvalidSignature => "signature verification failed"
  | .TokenExpired => "token expired"
  | .InvalidClaims => "incorrect claims"
  | .PermissionsClaimMissing => "permissions not included in JWT"
  | .PermissionDenied => "permission not found"
  | .KeySetUnavailable => "unable to fetch signing keys"

/-- Modelled from the spec: the AuthError value carried to the dispatcher,
holding a status code and a description (section 6 output contract). The
kind determines the status code. -/
structure AuthError where
  kind : AuthErrorKind
  description : String
deriving DecidableEq, Repr

/-- The status_code field of an AuthError, as read by the api.py handler. -/
def AuthError.status_code (e : AuthError) : Nat := e.kind.status

/-- Build the AuthError for a given kind with its standard description. -/
def authErr (k : AuthErrorKind) : AuthError := ⟨k, k.message⟩

/-- Split a character list at every occurrence of the separator, keeping
an accumulator of the current chunk in reverse. -/
def splitChunks (sep : Char) : List Char → List Char → List (List Char)
  | [], acc => [acc.reverse]
  | x :: xs, acc =>
    if x = sep then acc.reverse :: splitChunks sep xs []
    else splitChunks sep xs (x :: acc)

/-- Modelled from the spec: the space-separated parts of a header value
(section 4.1 requires "exactly two space-separated parts"). -/
def spaceParts (v : String) : List String :=
  (splitChunks ' ' v.toList []).map fun cs => String.mk cs

/-- Modelled from the spec: extract_token over the request header mapping
(section 4.1): the Authorization header must be present, must consist of
exactly two space-separated parts, and the first part must equal "Bearer"
(case-sensitive); the second part is the raw token. -/
def extract_token (headers : List (String × String)) : Except AuthError String :=
  match headers.lookup "Authorization" with
  | none => .error (authErr .MissingHeader)
  | some v =>
    match spaceParts v with
    | [scheme, token] =>
      if scheme = "Bearer" then .ok token else .error (authErr .MalformedHeader)
    | _ => .error (authErr .MalformedHeader)

/-- Modelled from the spec: the decoded claim set of a token (section 3):
issuer, audience, expiration timestamp and a permissions field holding the
permission strings, or none when the claim is absent. -/
structure Claims where
  iss : String
  aud : String
  exp : Int
  permissions : Option (List String)
deriving DecidableEq, Repr

/-- Modelled from the spec: a bearer token after base64url decoding
(sections 3 and 6): whether the header segment decodes, its kid and alg
header fields, whether the cryptographic signature validates against the
matched key under the declared algorithm, and the payload claims. -/
structure Token where
  headerDecodes : Bool
  kid : Option String
  alg : String
  sigValid : Bool
  claims : Claims
deriving DecidableEq, Repr

/-- Modelled from the spec: the recognized configuration options
(section 6): ALGORITHMS allow-list, API_AUDIENCE, and the issuer derived
from AUTH_DOMAIN. -/
structure Config where
  algorithms : List String
  audience : String
  issuer : String
deriving DecidableEq, Repr

/-- Modelled from the spec: verify(token, required_permission) (section
4.1, steps 1-7): decode header and find kid, locate the signing key,
check the declared algorithm against the allow-list and the signature,
validate expiration then audience and issuer, extract the permissions
claim, and check the required permission is present. The key set is the
list of trusted key identifiers; now is the current time. -/
def verify (cfg : Config) (keys : List String) (now : Int) (t : Token)
    (required : String) : Except AuthError Claims :=
  if t.headerDecodes = false then .error (authErr .MalformedToken)
  else match t.kid with
  | none => .error (authErr .MalformedToken)
  | some k =>
    if k ∉ keys then .error (authErr .UnknownKey)
    else if t.alg ∉ cfg.algorithms then .error (authErr .InvalidSignature)
    else if t.sigValid = false then .error (authErr .InvalidSignature)
    else if t.claims.exp < now then .error (authErr .TokenExpired)
    else if t.claims.aud ≠ cfg.audience then .error (authErr .InvalidClaims)
    else if t.claims.iss ≠ cfg.issuer then .error (authErr .InvalidClaims)
    else match t.claims.permissions with
    | none => .error (authErr .PermissionsClaimMissing)
    | some ps =>
      if required ∈ ps then .ok t.claims
      else .error (authErr .PermissionDenied)

/-- Modelled from the spec: a token passed full structural + signature +
temporal validation and carries a permissions claim (section 3 invariant). -/
def tokenFullyValid (cfg : Config) (keys : List String) (now : Int)
    (t : Token) : Bool :=
  t.headerDecodes
    && (match t.kid with | some k => decide (k ∈ keys) | none => false)
    && decide (t.alg ∈ cfg.algorithms)
    && t.sigValid
    && decide (¬ t.claims.exp < now)
    && decide (t.claims.aud = cfg.audience)
    && decide (t.claims.iss = cfg.issuer)
    && t.claims.permissions.isSome

/-- Modelled from the spec: the requires_auth wrapping contract (section
4.1): the dispatcher calls extract_token, then verify(token, P), and only
invokes the operation body with the resulting claims when both succeed;
decode maps the raw bearer string to its structural token value. -/
def requires_auth {R : Type} (cfg : Config) (keys : List String) (now : Int)
    (decode : String → Token) (P : String) (f : Claims → R)
    (headers : List (String × String)) : Except AuthError R :=
  match extract_token headers with
  | .error e => .error e
  | .ok raw =>
    match verify cfg keys now (decode raw) P with
    | .error e => .error e
    | .ok c => .ok (f c)

/-- A drink record as in database.models: id, title, and recipe (stored as
a JSON string). -/
structure Drink where
  id : Nat
  title : String
  recipe : String
deriving DecidableEq, Repr

/-- The JSON success body shape returned by the drink routes in api.py. -/
structure DrinkJson where
  success : Bool
  drinks : List Drink
deriving DecidableEq, Repr

/-- Outcome of a Python route body: a returned value, a Flask abort with a
status code, or a raised NameError or KeyError. -/
inductive PyResult (α : Type) where
  | ok (a : α)
  | httpAbort (status : Nat)
  | nameError (name : String)
  | keyError (key : String)
deriving DecidableEq, Repr

/-- Truthiness of a Python string: non-empty strings are truthy. -/
def pyStrTruthy (s : String) : Bool := decide (s ≠ "")

/-- Embeds the condition of api.py line 82, the statement written
if "title" and "recipe" not in body. Python conjunction evaluates to its
left operand when that operand is falsy and to its right operand
otherwise, and the if-statement then tests the truthiness of the result;
body is represented by its list of keys. -/
def create_drink_guard (body : List String) : Bool :=
  if pyStrTruthy "title" then decide ("recipe" ∉ body) else pyStrTruthy "title"

/-- The local names bound in the body of create_drink (api.py lines
78-103): the decorator-supplied payload, then body, title, recipe and
new_drink. The name drink is never bound there. -/
def create_drink_locals : List String :=
  ["payload", "body", "title", "recipe", "new_drink"]

/-- Embeds create_drink (api.py lines 76-103): guard on the request body,
read title and recipe, build new_drink, insert it (insertOk tells whether
the insert raises), and return the success JSON, whose expression
evaluates the name drink among the Drink-valued locals - only new_drink
is bound, so the lookup fails. nextId stands for the id the database
would assign. -/
def create_drink (body : List (String × String)) (nextId : Nat)
    (insertOk : Bool) : PyResult DrinkJson :=
  if create_drink_guard (body.map Prod.fst) then .httpAbort 422
  else match body.lookup "title" with
  | none => .keyError "title"
  | some title =>
    match body.lookup "recipe" with
    | none => .keyError "recipe"
    | some recipe =>
      let new_drink : Drink := ⟨nextId, title, recipe⟩
      if insertOk then
        match ([("new_drink", new_drink)] : List (String × Drink)).lookup "drink" with
        | none => .nameError "drink"
        | some d => .ok ⟨true, [d]⟩
      else .httpAbort 400

/-- Embeds update_drink (api.py lines 116-143): find the drink by id
(abort 404 when absent), overwrite title when the body has a "title" key,
overwrite recipe when it has a "recipe" key, persist, and return the
updated drink in the success JSON. -/
def update_drink (drinks : List Drink) (id : Nat)
    (body : List (String × String)) : PyResult DrinkJson :=
  match drinks.find? (fun d => d.id == id) with
  | none => .httpAbort 404
  | some drink =>
    let drink1 := match body.lookup "title" with
      | some t => { drink with title := t }
      | none => drink
    let drink2 := match body.lookup "recipe" with
      | some r => { drink1 with recipe := r }
      | none => drink1
    .ok ⟨true, [drink2]⟩

/-- The JSON error body returned by the api.py error handlers. -/
structure ErrorBody where
  success : Bool
  error : Nat
  message : String
deriving DecidableEq, Repr

/-- Embeds the AuthError handler auth_error (api.py lines 222-228):
returns the JSON body with success false, the error status code and the
description, paired with that same status code as the HTTP status. -/
def auth_error (e : AuthError) : ErrorBody × Nat :=
  (⟨false, e.status_code, e.description⟩, e.status_code)

/-! Concrete fixtures used by witnesses. -/

/-- A concrete configuration: RS256 allow-list, drinks audience, the
Auth0 issuer used by the repository. -/
def cfgW : Config := ⟨["RS256"], "drinks", "https://test-alanoud.us.auth0.com/"⟩

/-- Concrete decoded claims, matching cfgW, with two permissions. -/
def claimsW : Claims :=
  ⟨"https://test-alanoud.us.auth0.com/", "drinks", 100,
    some ["post:drinks", "get:drinks-detail"]⟩

/-- A concrete fully valid token carrying claimsW. -/
def tokW : Token := ⟨true, some "kid1", "RS256", true, claimsW⟩

/-! Theorems. -/

/-- C5: extract_token fails with MissingHeader exactly when the
Authorization header is absent, fails with MalformedHeader when the value
does not split into exactly two space-separated parts with first part
"Bearer", and otherwise returns the second part; both failures carry
status 401. -/
theorem extract_token_correct (headers : List (String × String))
    (v tok : String) :
    (extract_token headers = .error (authErr .MissingHeader) ↔
      headers.lookup "Authorization" = none) ∧
    (headers.lookup "Authorization" = some v →
      spaceParts v = ["Bearer", tok] → extract_token headers = .ok tok) ∧
    (headers.lookup "Authorization" = some v →
      (∀ u, spaceParts v ≠ ["Bearer", u]) →
      extract_token headers = .error (authErr .MalformedHeader)) ∧
    (authErr .MissingHeader).status_code = 401 ∧
    (authErr .MalformedHeader).status_code = 401 := by
  refine ⟨⟨?_, ?_⟩, ?_, ?_, rfl, rfl⟩
  · intro h
    cases hl : headers.lookup "Authorization" with
    | none => rfl
    | some w =>
      exfalso
      simp only [extract_token, hl] at h
      split at h
      · split at h
        · exact absurd h (by simp)
        · simp [authErr, AuthErrorKind.message] at h
      · simp [authErr, AuthErrorKind.message] at h
  · intro hl
    simp [extract_token, hl]
  · intro hl hs
    simp [extract_token, hl, hs]
  · intro hl hu
    simp only [extract_token, hl]
    split
    · next scheme token heq =>
      have hB : scheme ≠ "Bearer" := by
        intro hb
        exact hu token (by rw [heq, hb])
      simp [hB]
    · rfl

/-- C5 witness: concrete header maps exercising every branch of
extract_token_correct. -/
theorem extract_token_correct_witness :
    extract_token [("Authorization", "Bearer abc")] = .ok "abc" ∧
    extract_token [] = .error (authErr .MissingHeader) ∧
    extract_token [("Authorization", "Basic abc123")] =
      .error (authErr .MalformedHeader) ∧
    extract_token [("Authorization", "Bearer")] =
      .error (authErr .MalformedHeader) :=
  ⟨(extract_token_correct [("Authorization", "Bearer abc")]
      "Bearer abc" "abc").2.1 rfl (by decide),
   (extract_token_correct [] "" "").1.2 rfl,
   (extract_token_correct [("Authorization", "Basic abc123")]
      "Basic abc123" "").2.2.1 rfl (by
        intro u hEq
        rw [show spaceParts "Basic abc123" = ["Basic", "abc123"] from rfl] at hEq
        injection hEq with h1 h2
        exact absurd h1 (by decide)),
   (extract_token_correct [("Authorization", "Bearer")]
      "Bearer" "").2.2.1 rfl (by
        intro u hEq
        rw [show spaceParts "Bearer" = ["Bearer"] from rfl] at hEq
        injection hEq with h1 h2
        injection h2)⟩

/-- C2: for a token with valid signature and valid standard claims
(decodable header, known kid, allow-listed algorithm, valid signature,
unexpired, matching audience and issuer, permissions claim present),
verify returns the decoded claims iff the required permission is in the
permissions set, and when it is absent verify fails with
PermissionDenied, status 403. -/
theorem verify_permission_check (cfg : Config) (keys : List String)
    (now : Int) (t : Token) (P k : String) (ps : List String)
    (hhd : t.headerDecodes = true) (hkid : t.kid = some k) (hk : k ∈ keys)
    (halg : t.alg ∈ cfg.algorithms) (hsig : t.sigValid = true)
    (hexp : ¬ t.claims.exp < now) (haud : t.claims.aud = cfg.audience)
    (hiss : t.claims.iss = cfg.issuer)
    (hps : t.claims.permissions = some ps) :
    (verify cfg keys now t P = .ok t.claims ↔ P ∈ ps) ∧
    (P ∉ ps → verify cfg keys now t P = .error (authErr .PermissionDenied) ∧
      (authErr .PermissionDenied).status_code = 403) := by
  constructor
  · constructor
    · intro h
      by_contra hP
      simp [verify, hhd, hkid, hk, halg, hsig, hexp, haud, hiss, hps, hP] at h
    · intro hP
      simp [verify, hhd, hkid, hk, halg, hsig, hexp, haud, hiss, hps, hP]
  · intro hP
    refine ⟨?_, rfl⟩
    simp [verify, hhd, hkid, hk, halg, hsig, hexp, haud, hiss, hps, hP]

/-- C2 witness: the concrete valid token tokW holds permission
"post:drinks" and lacks "delete:drinks". -/
theorem verify_permission_check_witness :
    ((verify cfgW ["kid1"] 0 tokW "post:drinks" = .ok tokW.claims ↔
        "post:drinks" ∈ ["post:drinks", "get:drinks-detail"]) ∧
      ("post:drinks" ∉ ["post:drinks", "get:drinks-detail"] →
        verify cfgW ["kid1"] 0 tokW "post:drinks" =
          .error (authErr .PermissionDenied) ∧
        (authErr .PermissionDenied).status_code = 403)) ∧
    ((verify cfgW ["kid1"] 0 tokW "delete:drinks" = .ok tokW.claims ↔
        "delete:drinks" ∈ ["post:drinks", "get:drinks-detail"]) ∧
      ("delete:drinks" ∉ ["post:drinks", "get:drinks-detail"] →
        verify cfgW ["kid1"] 0 tokW "delete:drinks" =
          .error (authErr .PermissionDenied) ∧
        (authErr .PermissionDenied).status_code = 403)) :=
  ⟨verify_permission_check cfgW ["kid1"] 0 tokW "post:drinks" "kid1"
      ["post:drinks", "get:drinks-detail"] rfl rfl (by decide) (by decide)
      rfl (by decide) rfl rfl rfl,
   verify_permission_check cfgW ["kid1"] 0 tokW "delete:drinks" "kid1"
      ["post:drinks", "get:drinks-detail"] rfl rfl (by decide) (by decide)
      rfl (by decide) rfl rfl rfl⟩

/-- A concrete token whose header segment does not decode and whose exp
lies in the past. -/
def tokUndecodable : Token :=
  ⟨false, some "kid1", "RS256", true,
    ⟨"https://test-alanoud.us.auth0.com/", "drinks", -5, some []⟩⟩

/-- C3 counterexample: a token whose exp is in the past but whose header
segment does not decode fails with MalformedToken, not TokenExpired, so
the unconditional claim is false as stated. -/
theorem verify_expired_counterexample :
    tokUndecodable.claims.exp < 0 ∧
    verify cfgW ["kid1"] 0 tokUndecodable "get:drinks-detail" =
      .error (authErr .MalformedToken) ∧
    authErr .MalformedToken ≠ authErr .TokenExpired :=
  ⟨by decide, rfl, by decide⟩

/-- C3 (amended): for every token that passes header decoding, key
lookup, the algorithm allow-list and signature validation, if its exp is
in the past then verify fails with TokenExpired regardless of the
permissions content; TokenExpired and InvalidClaims both carry status
401. -/
theorem verify_expired (cfg : Config) (keys : List String) (now : Int)
    (t : Token) (P k : String)
    (hhd : t.headerDecodes = true) (hkid : t.kid = some k) (hk : k ∈ keys)
    (halg : t.alg ∈ cfg.algorithms) (hsig : t.sigValid = true)
    (hexp : t.claims.exp < now) :
    verify cfg keys now t P = .error (authErr .TokenExpired) ∧
    (authErr .TokenExpired).status_code = 401 ∧
    (authErr .InvalidClaims).status_code = 401 := by
  refine ⟨?_, rfl, rfl⟩
  simp [verify, hhd, hkid, hk, halg, hsig, hexp]

/-- A concrete structurally valid but expired token. -/
def tokExpired : Token :=
  ⟨true, some "kid1", "RS256", true,
    ⟨"https://test-alanoud.us.auth0.com/", "drinks", -5,
      some ["get:drinks-detail"]⟩⟩

/-- C3 witness: the concrete expired token tokExpired is rejected with
TokenExpired at time 0. -/
theorem verify_expired_witness :
    verify cfgW ["kid1"] 0 tokExpired "get:drinks-detail" =
      .error (authErr .TokenExpired) ∧
    (authErr .TokenExpired).status_code = 401 ∧
    (authErr .InvalidClaims).status_code = 401 :=
  verify_expired cfgW ["kid1"] 0 tokExpired "get:drinks-detail" "kid1"
    rfl rfl (by decide) (by decide) rfl (by decide)

/-- C4: every token whose header declares an algorithm outside the
configured allow-list is rejected by verify with a status-401 AuthError,
regardless of whether the signature would otherwise validate. -/
theorem verify_alg_outside_allowlist (cfg : Config) (keys : List String)
    (now : Int) (t : Token) (P : String)
    (halg : t.alg ∉ cfg.algorithms) :
    ∃ e, verify cfg keys now t P = .error e ∧ e.status_code = 401 := by
  by_cases hhd : t.headerDecodes = false
  · exact ⟨authErr .MalformedToken, by simp [verify, hhd], rfl⟩
  · match hkid : t.kid with
    | none => exact ⟨authErr .MalformedToken, by simp [verify, hhd, hkid], rfl⟩
    | some k =>
      by_cases hk : k ∈ keys
      · exact ⟨authErr .InvalidSignature,
          by simp [verify, hhd, hkid, hk, halg], rfl⟩
      · exact ⟨authErr .UnknownKey, by simp [verify, hhd, hkid, hk], rfl⟩

/-- C4 witness: a concrete HS256 token with an otherwise valid signature
is rejected with status 401 when the allow-list is RS256 only. -/
theorem verify_alg_outside_allowlist_witness :
    ∃ e, verify cfgW ["kid1"] 0
        ⟨true, some "kid1", "HS256", true, claimsW⟩ "post:drinks" =
      .error e ∧ e.status_code = 401 :=
  verify_alg_outside_allowlist cfgW ["kid1"] 0
    ⟨true, some "kid1", "HS256", true, claimsW⟩ "post:drinks" (by decide)

/-- Inversion: a successful verify implies the token passed every
validation step, the returned claims are those of the token, and the
required permission is among them. -/
theorem verify_ok_inv (cfg : Config) (keys : List String) (now : Int)
    (t : Token) (P : String) (c : Claims)
    (h : verify cfg keys now t P = .ok c) :
    c = t.claims ∧ tokenFullyValid cfg keys now t = true ∧
    P ∈ c.permissions.getD [] := by
  unfold verify at h
  repeat' split at h
  all_goals simp_all [tokenFullyValid]

/-- C1: requires_auth gates uniformly: a wrapped operation produces a
result only when extract_token and verify both succeed, in which case the
token passed full validation and its claims contain the required
permission; and whenever any step fails the outcome does not depend on
the wrapped operation at all - it never executes. -/
theorem requires_auth_gates {R : Type} (cfg : Config) (keys : List String)
    (now : Int) (decode : String → Token) (P : String) (f g : Claims → R)
    (headers : List (String × String)) :
    (∀ r, requires_auth cfg keys now decode P f headers = .ok r →
      ∃ raw c, extract_token headers = .ok raw ∧
        verify cfg keys now (decode raw) P = .ok c ∧
        tokenFullyValid cfg keys now (decode raw) = true ∧
        P ∈ c.permissions.getD [] ∧ r = f c) ∧
    ((∀ r, requires_auth cfg keys now decode P f headers ≠ .ok r) →
      requires_auth cfg keys now decode P g headers =
        requires_auth cfg keys now decode P f headers) := by
  constructor
  · intro r h
    unfold requires_auth at h
    split at h
    · exact absurd h (by simp)
    next raw hraw =>
      split at h
      · exact absurd h (by simp)
      next c hc =>
        have hv := verify_ok_inv cfg keys now (decode raw) P c hc
        exact ⟨raw, c, hraw, hc, hv.2.1, hv.2.2, (Except.ok.inj h).symm⟩
  · intro hfail
    unfold requires_auth at hfail ⊢
    split
    · rfl
    next raw hraw =>
      split
      · rfl
      next c hc =>
        rw [hraw] at hfail
        simp only [hc] at hfail
        exact absurd rfl (hfail (f c))

/-- The decode map used by the C1 witness: every raw string decodes to
the concrete valid token tokW. -/
def decodeW : String → Token := fun _ => tokW

/-- C1 witness: with a well-formed Authorization header and the valid
token tokW, the gated pipeline succeeds and exposes the verified claims. -/
theorem requires_auth_gates_witness :
    ∃ raw c, extract_token [("Authorization", "Bearer abc")] = .ok raw ∧
      verify cfgW ["kid1"] 0 (decodeW raw) "post:drinks" = .ok c ∧
      tokenFullyValid cfgW ["kid1"] 0 (decodeW raw) = true ∧
      "post:drinks" ∈ c.permissions.getD [] ∧ claimsW = id c :=
  (requires_auth_gates cfgW ["kid1"] 0 decodeW "post:drinks" id id
    [("Authorization", "Bearer abc")]).1 claimsW rfl

/-- C7: verify is a pure function of the token and required permission:
two successive verifications of the same token that both succeed yield
equal DecodedClaims values. -/
theorem verify_idempotent (cfg : Config) (keys : List String) (now : Int)
    (t : Token) (P : String) (c₁ c₂ : Claims)
    (h₁ : verify cfg keys now t P = .ok c₁)
    (h₂ : verify cfg keys now t P = .ok c₂) :
    c₁ = c₂ := by
  rw [h₁] at h₂
  exact Except.ok.inj h₂

/-- C7 witness: the concrete valid token verifies twice to the same
claims. -/
theorem verify_idempotent_witness : claimsW = claimsW :=
  verify_idempotent cfgW ["kid1"] 0 tokW "post:drinks" claimsW claimsW
    rfl rfl

/-- C6: the AuthError handler returns a JSON body with success false,
error equal to the AuthError status code, message equal to its
description, and the same HTTP status; the kind-to-status mapping is 403
exactly for PermissionDenied, 400 exactly for PermissionsClaimMissing,
and 401 for every other kind. -/
theorem auth_error_renders (e : AuthError) :
    (auth_error e).1.success = false ∧
    (auth_error e).1.error = e.status_code ∧
    (auth_error e).1.message = e.description ∧
    (auth_error e).2 = e.status_code ∧
    (e.status_code = 403 ↔ e.kind = .PermissionDenied) ∧
    (e.status_code = 400 ↔ e.kind = .PermissionsClaimMissing) ∧
    (e.kind ≠ .PermissionDenied → e.kind ≠ .PermissionsClaimMissing →
      e.status_code = 401) := by
  obtain ⟨k, d⟩ := e
  refine ⟨rfl, rfl, rfl, rfl, ?_, ?_, ?_⟩ <;>
    cases k <;> simp [AuthError.status_code, AuthErrorKind.status]

/-- C6 witness: rendering of the concrete TokenExpired error. -/
theorem auth_error_renders_witness :
    (auth_error (authErr .TokenExpired)).1.success = false ∧
    (auth_error (authErr .TokenExpired)).1.error =
      (authErr .TokenExpired).status_code ∧
    (auth_error (authErr .TokenExpired)).1.message =
      (authErr .TokenExpired).description ∧
    (auth_error (authErr .TokenExpired)).2 =
      (authErr .TokenExpired).status_code ∧
    (authErr .TokenExpired).status_code = 401 := by
  have h := auth_error_renders (authErr .TokenExpired)
  exact ⟨h.1, h.2.1, h.2.2.1, h.2.2.2.1,
    h.2.2.2.2.2.2 (by decide) (by decide)⟩

/-- C8: the guard of create_drink, because Python conjunction keeps only
the second operand when the first is a truthy string, tests only that
"recipe" is absent: a body containing "recipe" but lacking "title" does
not trigger abort 422, and in general the guard equals the test that
"recipe" is not a key of the body. -/
theorem create_drink_guard_only_recipe :
    create_drink_guard ["recipe"] = false ∧
    "title" ∉ (["recipe"] : List String) ∧
    create_drink [("recipe", "water")] 1 true ≠ PyResult.httpAbort 422 ∧
    (∀ body : List String,
      create_drink_guard body = decide ("recipe" ∉ body)) := by
  refine ⟨rfl, by decide, by decide, fun body => rfl⟩

/-- C8 witness: the guard evaluated on a body holding only "title". -/
theorem create_drink_guard_only_recipe_witness :
    create_drink_guard ["title"] = decide ("recipe" ∉ (["title"] : List String)) :=
  create_drink_guard_only_recipe.2.2.2 ["title"]

/-- C9: create_drink can never return its success JSON: the success
expression looks up the name drink, which is not among the locals of
create_drink (the new record is bound to new_drink), so every call that
passes the guard, finds both keys and inserts successfully ends with a
raised NameError on drink. -/
theorem create_drink_never_succeeds (body : List (String × String))
    (nextId : Nat) (insertOk : Bool) (t r : String) :
    (∀ j, create_drink body nextId insertOk ≠ PyResult.ok j) ∧
    "drink" ∉ create_drink_locals ∧
    (create_drink_guard (body.map Prod.fst) = false →
      body.lookup "title" = some t → body.lookup "recipe" = some r →
      insertOk = true →
      create_drink body nextId insertOk = .nameError "drink") := by
  refine ⟨?_, by decide, ?_⟩
  · intro j h
    unfold create_drink at h
    repeat' split at h
    all_goals simp_all [List.lookup]
  · intro hg ht hr hins
    simp [create_drink, hg, ht, hr, hins, List.lookup]

/-- C9 witness: a concrete well-formed creation request raises NameError
on drink. -/
theorem create_drink_never_succeeds_witness :
    create_drink [("title", "water"), ("recipe", "ice")] 1 true =
      PyResult.nameError "drink" :=
  (create_drink_never_succeeds [("title", "water"), ("recipe", "ice")]
    1 true "water" "ice").2.2 rfl rfl rfl rfl

/-- C10: update_drink only changes the fields named in the body: the id
is always preserved, the title is unchanged when the body has no "title"
key, and the recipe is unchanged when the body has no "recipe" key. -/
theorem update_drink_frame (drinks : List Drink) (id : Nat)
    (body : List (String × String)) (d : Drink) (j : DrinkJson)
    (hfind : drinks.find? (fun d0 => d0.id == id) = some d)
    (hok : update_drink drinks id body = PyResult.ok j) :
    ∃ d', j = ⟨true, [d']⟩ ∧ d'.id = d.id ∧
      (body.lookup "title" = none → d'.title = d.title) ∧
      (body.lookup "recipe" = none → d'.recipe = d.recipe) := by
  unfold update_drink at hok
  rw [hfind] at hok
  simp only at hok
  cases hok
  refine ⟨_, rfl, ?_, ?_, ?_⟩
  · cases ht : body.lookup "title" <;> cases hr : body.lookup "recipe" <;>
      simp [ht, hr]
  · intro ht
    cases hr : body.lookup "recipe" <;> simp [ht, hr]
  · intro hr
    cases ht : body.lookup "title" <;> simp [ht, hr]

/-- C10 witness: patching only the title of a concrete drink keeps its id
and recipe. -/
theorem update_drink_frame_witness :
    ∃ d', (⟨true, [⟨1, "latte", "r0"⟩]⟩ : DrinkJson) = ⟨true, [d']⟩ ∧
      d'.id = 1 ∧
      (([("title", "latte")] : List (String × String)).lookup "title" = none →
        d'.title = "cola") ∧
      (([("title", "latte")] : List (String × String)).lookup "recipe" = none →
        d'.recipe = "r0") :=
  update_drink_frame [⟨1, "cola", "r0"⟩] 1 [("title", "latte")]
    ⟨1, "cola", "r0"⟩ ⟨true, [⟨1, "latte", "r0"⟩]⟩ rfl rfl

end CoffeeShop
